import Mathlib

/-!
Shallow embedding of the CO2-emissions pipeline (three Streamlit pages):
Stage 1 links supplier/consignee codes to postal codes via master tables,
Stage 2 resolves postal codes to averaged coordinates, Stage 3 computes
haversine distances and CO2 estimates and partitions rows at 600 km.

Pandas tables are embedded as lists of structured rows; a missing cell
(pandas NaN) is Option.none.  Numeric cells carry exact rationals; the
trigonometric core of the haversine formula is kept as an explicit
function parameter because real-valued trigonometry has no exact
executable form, while the NaN-propagation wrapper, the fillna defaults,
the rounding and the 600 km partition are embedded from the source.
-/

namespace CO2

/-- Python str.strip on the character list of a string: drop whitespace
from both ends. -/
def stripChars (l : List Char) : List Char :=
  ((l.dropWhile Char.isWhitespace).reverse.dropWhile Char.isWhitespace).reverse

/-- Embeds the pandas .str.strip() normalization. -/
def strip (s : String) : String := String.mk (stripChars s.data)

/-- Embeds .str.replace with the hyphen and the empty string, regex off:
remove every hyphen character. -/
def removeHyphens (s : String) : String :=
  String.mk (s.data.filter (fun c => c ≠ '-'))

/-- Embeds pandas astype(str) on a cell that may be NaN: a missing value
stringifies to the literal text nan. -/
def optStr : Option String → String
  | none => "nan"
  | some s => s

/-- Embeds the regular-expression check for exactly seven digits used by
Stage 2 on postal keys. -/
def isDigit7 (s : String) : Bool :=
  (s.data.length == 7) && s.data.all (fun c => c.isDigit)

/-- Embeds fillna with the empty string, astype(str) and the replacement
of the literal text nan by the empty string, applied by Stage 1 to the
joined postal column. -/
def postalToStr : Option String → String
  | none => ""
  | some s => if s = "nan" then "" else s

/-- Python round to five decimal places on an exact rational.  Python
rounds ties to even while Mathlib round rounds ties up; no value in this
development sits on a tie, so the embedding agrees with the source on
every input considered. -/
def round5 (x : ℚ) : ℚ := (round (x * 100000) : ℤ) / 100000

/-- Worker for drop_duplicates keeping the first occurrence: seen holds
the values already emitted. -/
def dedupFirstAux [DecidableEq α] (seen : List α) : List α → List α
  | [] => []
  | x :: xs =>
    if x ∈ seen then dedupFirstAux seen xs
    else x :: dedupFirstAux (x :: seen) xs

/-- Embeds drop_duplicates over whole rows, keeping the first occurrence
(the pandas default). -/
def dedupFirst [DecidableEq α] (l : List α) : List α := dedupFirstAux [] l

/-- Worker for drop_duplicates on a key column keeping the first
occurrence. -/
def dedupFirstByAux [DecidableEq κ] (key : α → κ) (seen : List κ) : List α → List α
  | [] => []
  | x :: xs =>
    if key x ∈ seen then dedupFirstByAux key seen xs
    else x :: dedupFirstByAux key (key x :: seen) xs

/-- Embeds drop_duplicates on a key column with keep set to first, as in
the Stage-3 coordinate lookups. -/
def dedupFirstBy [DecidableEq κ] (key : α → κ) (l : List α) : List α :=
  dedupFirstByAux key [] l

/-- Embeds drop_duplicates on a key column with keep set to last, as in
the Stage-1 master preparation: a row survives when no later row shares
its key. -/
def dedupLastBy [DecidableEq κ] (key : α → κ) : List α → List α
  | [] => []
  | x :: xs =>
    if xs.any (fun y => key y = key x) then dedupLastBy key xs
    else x :: dedupLastBy key xs

/-! ## Stage 1: postal-code linking -/

/-- The two code roles; the source stores them as the literal strings
for supplier and consignee. -/
inductive CodeType where
  | supplier
  | consignee
deriving DecidableEq, Repr

/-- One sales row as Stage 1 sees it after projecting the two code
columns; a cell is none when the CSV holds NaN. -/
structure SalesRow1 where
  supplier : Option String
  consignee : Option String
deriving DecidableEq, Repr

/-- One master-table row: code and postal cell, either possibly NaN. -/
structure MasterRow where
  code : Option String
  postal : Option String
deriving DecidableEq, Repr

/-- A (codeType, code) pair in the unified code relation. -/
structure CodeRec where
  ctype : CodeType
  code : String
deriving DecidableEq, Repr

/-- A Stage-1 output row: pair plus the joined postal column after the
missing-to-empty coercion. -/
structure Linked where
  ctype : CodeType
  code : String
  postal : String
deriving DecidableEq, Repr

/-- The pair carried by a Stage-1 matched row. -/
def pairOf (l : Linked) : CodeRec := CodeRec.mk l.ctype l.code

/-- Embeds the Stage-1 extraction: project the supplier column tagged
supplier, then the consignee column tagged consignee, concatenate, drop
NaN codes, stringify and strip, and drop codes that became empty. -/
def normalizedCodes (sales : List SalesRow1) : List CodeRec :=
  (((sales.map (fun r => (CodeType.supplier, r.supplier))) ++
    (sales.map (fun r => (CodeType.consignee, r.consignee)))).filterMap
      (fun p => p.2.map (fun s => CodeRec.mk p.1 (strip s)))).filter
    (fun r => r.code ≠ "")

/-- The master rows surviving the Stage-1 normalization, before the
deduplication: drop rows with a NaN code or postal, stringify and strip
the code, and strip hyphens from the code when the flag is set (supplier
master only). -/
def masterNormRows (stripHy : Bool) (rows : List MasterRow) : List (String × String) :=
  rows.filterMap (fun r =>
    match r.code, r.postal with
    | some c, some p =>
      let c1 := strip c
      some (if stripHy then removeHyphens c1 else c1, p)
    | _, _ => none)

/-- Embeds the Stage-1 master preparation: normalize, then deduplicate
by code keeping the last occurrence. -/
def prepMaster (stripHy : Bool) (rows : List MasterRow) : List (String × String) :=
  dedupLastBy (fun e => e.1) (masterNormRows stripHy rows)

/-- Left-join lookup against a prepared master whose codes are unique:
the postal of the row with the given code, if any. -/
def lookupMaster (m : List (String × String)) (c : String) : Option String :=
  (m.find? (fun e => e.1 = c)).map (fun e => e.2)

/-- The master consulted for a pair depends on its role: supplier pairs
join the supplier master, consignee pairs the consignee master. -/
def joinedPostal (supM conM : List (String × String)) (p : CodeRec) : Option String :=
  match p.ctype with
  | CodeType.supplier => lookupMaster supM p.code
  | CodeType.consignee => lookupMaster conM p.code

/-- Embeds the Stage-1 merge: the supplier block of the unique relation
left-joined to the supplier master, then the consignee block joined to
the consignee master, concatenated; the joined postal is coerced by
postalToStr. -/
def mergedAll (uniq : List CodeRec) (supM conM : List (String × String)) : List Linked :=
  ((uniq.filter (fun r => r.ctype = CodeType.supplier)).map
    (fun r => Linked.mk r.ctype r.code (postalToStr (joinedPostal supM conM r)))) ++
  ((uniq.filter (fun r => r.ctype = CodeType.consignee)).map
    (fun r => Linked.mk r.ctype r.code (postalToStr (joinedPostal supM conM r))))

/-- The two Stage-1 outputs: the matched list and the unmatched list. -/
structure Stage1Out where
  success : List Linked
  failed : List CodeRec
deriving DecidableEq, Repr

/-- Embeds the Stage-1 run on already-decoded tables: extract and
normalize codes, deduplicate pairs, prepare the two masters, merge, and
split on whether the joined postal is the empty string. -/
def stage1 (sales : List SalesRow1) (supRows conRows : List MasterRow) : Stage1Out :=
  let uniq := dedupFirst (normalizedCodes sales)
  let supM := prepMaster true supRows
  let conM := prepMaster false conRows
  let all := mergedAll uniq supM conM
  { success := all.filter (fun r => r.postal ≠ ""),
    failed := (all.filter (fun r => r.postal = "")).map pairOf }

/-! ## Stage 2: coordinate resolution -/

/-- One geocode reference row: postal cell (none for NaN) and the two
coordinate cells after the to_numeric coercion (none for NaN or
unparsable text). -/
structure GeoRow where
  postal : Option String
  lat : Option ℚ
  lon : Option ℚ
deriving DecidableEq, Repr

/-- The postal key of a geocode row: stringify (NaN becomes the text
nan), strip, remove hyphens. -/
def geoKey (p : Option String) : String := removeHyphens (strip (optStr p))

/-- Embeds the Stage-2 reference filtering: keep rows whose coordinates
are both present and whose postal key is exactly seven digits, keyed by
the postal key. -/
def validGeo (rows : List GeoRow) : List (String × ℚ × ℚ) :=
  rows.filterMap (fun r =>
    match r.lat, r.lon with
    | some la, some lo =>
      let k := geoKey r.postal
      if isDigit7 k then some (k, la, lo) else none
    | _, _ => none)

/-- The group keys of the surviving reference rows, one per distinct
postal key. -/
def groupKeys (v : List (String × ℚ × ℚ)) : List String :=
  dedupFirst (v.map (fun e => e.1))

/-- Embeds the Stage-2 groupby aggregation: per distinct postal key, the
arithmetic mean of the latitudes and of the longitudes of all valid rows
sharing that key. -/
def geocodeAvgTable (rows : List GeoRow) : List (String × ℚ × ℚ) :=
  let v := validGeo rows
  (groupKeys v).map (fun k =>
    let g := v.filter (fun e => e.1 = k)
    (k, (g.map (fun e => e.2.1)).sum / (g.length : ℚ),
        (g.map (fun e => e.2.2)).sum / (g.length : ℚ)))

/-- Left-join lookup against the averaged table, whose keys are unique:
the mean coordinates stored for the key, if any. -/
def lookupAvg (t : List (String × ℚ × ℚ)) (k : String) : Option (ℚ × ℚ) :=
  (t.find? (fun e => e.1 = k)).map (fun e => (e.2.1, e.2.2))

/-- One Stage-2 input row from the code-list CSV: code type and code as
plain strings, postal cell possibly NaN. -/
structure S2Row where
  ctype : String
  code : String
  postal : Option String
deriving DecidableEq, Repr

/-- The postal key of a code-list row: stringify, strip, remove
hyphens. -/
def s2postalKey (r : S2Row) : String := removeHyphens (strip (optStr r.postal))

/-- A Stage-2 matched row: the stripped postal display column plus the
averaged coordinates. -/
structure S2SRow where
  ctype : String
  code : String
  postal : String
  lat : ℚ
  lon : ℚ
deriving DecidableEq, Repr

/-- A Stage-2 unmatched row, annotated with the fixed failure reason. -/
structure S2FRow where
  ctype : String
  code : String
  postal : String
  reason : String
deriving DecidableEq, Repr

/-- The fixed Stage-2 failure-reason text. -/
def s2FailReason : String := "Geocodeデータに該当する有効な郵便番号が見つかりませんでした"

/-- The two Stage-2 outputs. -/
structure S2Out where
  success : List S2SRow
  failed : List S2FRow
deriving DecidableEq, Repr

/-- Embeds the Stage-2 run on already-decoded tables: drop code-list
rows whose postal key is not seven digits, left-join the survivors
against the averaged reference table on the key, and split on whether
coordinates were found. -/
def stage2 (codeList : List S2Row) (geo : List GeoRow) : S2Out :=
  let avg := geocodeAvgTable geo
  let kept := codeList.filter (fun r => isDigit7 (s2postalKey r))
  let merged := kept.map (fun r => (r, lookupAvg avg (s2postalKey r)))
  { success := merged.filterMap (fun pr =>
      pr.2.map (fun ll =>
        S2SRow.mk pr.1.ctype pr.1.code (strip (optStr pr.1.postal)) ll.1 ll.2)),
    failed := merged.filterMap (fun pr =>
      match pr.2 with
      | none => some (S2FRow.mk pr.1.ctype pr.1.code (strip (optStr pr.1.postal)) s2FailReason)
      | some _ => none) }

/-! ## Stage 3: distance and CO2 -/

/-- One sales-detail row as Stage 3 uses it: the two code cells and the
quantity cell after the to_numeric coercion (none for NaN, a missing
column, or unparsable text). -/
structure S3Row where
  supplier : Option String
  consignee : Option String
  qty : Option ℚ
deriving DecidableEq, Repr

/-- One decoded sales-detail file: its header columns and its rows. -/
structure S3File where
  cols : List String
  rows : List S3Row
deriving DecidableEq, Repr

/-- One row of the geocoded code list fed to Stage 3. -/
structure GeoListRow where
  ctype : String
  code : Option String
  lat : Option ℚ
  lon : Option ℚ
deriving DecidableEq, Repr

/-- The three columns Stage 3 requires of the concatenated sales
data. -/
def requiredSalesCols : List String := ["仕入先コード", "荷受人コード", "分析用単位数量"]

/-- The concatenated sales rows, file order preserved. -/
def allSalesRows (files : List S3File) : List S3Row := (files.map S3File.rows).flatten

/-- The columns of the concatenated sales data: pandas concat takes the
union of the files' columns in first-seen order. -/
def concatCols (files : List S3File) : List String :=
  dedupFirst ((files.map S3File.cols).flatten)

/-- Embeds the Stage-3 coordinate-lookup preparation: stringify and
strip the code, drop rows missing either coordinate, split by role, and
deduplicate each side by code keeping the first occurrence. -/
def prepGeo (rows : List GeoListRow) : List (String × ℚ × ℚ) × List (String × ℚ × ℚ) :=
  let g := rows.filterMap (fun r =>
    match r.lat, r.lon with
    | some la, some lo => some (r.ctype, strip (optStr r.code), la, lo)
    | _, _ => none)
  ((dedupFirstBy (fun e => e.2.1) (g.filter (fun e => e.1 = "仕入先"))).map (fun e => e.2),
   (dedupFirstBy (fun e => e.2.1) (g.filter (fun e => e.1 = "荷受人"))).map (fun e => e.2))

/-- Left-join lookup against a role lookup table whose codes are unique:
the coordinates stored for the code, if any. -/
def lookupGeo (t : List (String × ℚ × ℚ)) (c : String) : Option (ℚ × ℚ) :=
  (t.find? (fun e => e.1 = c)).map (fun e => (e.2.1, e.2.2))

/-- Embeds the NaN guard at the top of the haversine function: the
distance is missing when any of the four coordinates is missing, and is
otherwise given by the trigonometric core hav. -/
def haversineOpt (hav : ℚ → ℚ → ℚ → ℚ → ℚ) :
    Option ℚ → Option ℚ → Option ℚ → Option ℚ → Option ℚ
  | some a, some b, some c, some d => some (hav a b c d)
  | _, _, _, _ => none

/-- One Stage-3 output row: the original cells, the four joined
coordinate cells, and the rounded distance and emission columns. -/
structure OutRow where
  supplier : Option String
  consignee : Option String
  qty : Option ℚ
  supLat : Option ℚ
  supLon : Option ℚ
  conLat : Option ℚ
  conLon : Option ℚ
  distKm : ℚ
  co2g : ℚ
deriving DecidableEq, Repr

/-- Embeds the Stage-3 per-row computation: normalize the codes, coerce
the quantity with the zero default, look up both endpoints, take the
haversine distance with the missing-to-zero fill, multiply out the
emission estimate, and round both results to five decimals. -/
def processRow (hav : ℚ → ℚ → ℚ → ℚ → ℚ)
    (supT conT : List (String × ℚ × ℚ)) (factor : ℚ) (r : S3Row) : OutRow :=
  let sp := lookupGeo supT (strip (optStr r.supplier))
  let cp := lookupGeo conT (strip (optStr r.consignee))
  let qty := r.qty.getD 0
  let dist := (haversineOpt hav (sp.map Prod.fst) (sp.map Prod.snd)
                 (cp.map Prod.fst) (cp.map Prod.snd)).getD 0
  let co2 := dist * qty * factor
  { supplier := r.supplier, consignee := r.consignee, qty := r.qty,
    supLat := sp.map Prod.fst, supLon := sp.map Prod.snd,
    conLat := cp.map Prod.fst, conLon := cp.map Prod.snd,
    distKm := round5 dist, co2g := round5 co2 }

/-- The Stage-3 result: the conservation baseline and the two output
partitions. -/
structure S3Out where
  inputCount : Nat
  normal : List OutRow
  anomaly : List OutRow
deriving DecidableEq, Repr

/-- The successful part of a Stage-3 run: process every concatenated
row and partition on the rounded distance against 600 km, the lower
bucket inclusive. -/
def stage3Core (hav : ℚ → ℚ → ℚ → ℚ → ℚ) (factor : ℚ)
    (files : List S3File) (geo : List GeoListRow) : S3Out :=
  let pg := prepGeo geo
  let outs := (allSalesRows files).map (processRow hav pg.1 pg.2 factor)
  { inputCount := (allSalesRows files).length,
    normal := outs.filter (fun o => decide (o.distKm ≤ 600)),
    anomaly := outs.filter (fun o => decide (600 < o.distKm)) }

/-- Embeds a Stage-3 run on already-decoded tables.  The per-file read
loop performs no schema check; the required-column check runs once on
the concatenated table, whose columns are the union of the files'
columns, and an empty file list aborts. -/
def stage3 (hav : ℚ → ℚ → ℚ → ℚ → ℚ) (factor : ℚ)
    (files : List S3File) (geo : List GeoListRow) : Except String S3Out :=
  if files = [] then Except.error "読み込み可能な販売実績ファイルがありませんでした。"
  else if ∀ c ∈ requiredSalesCols, c ∈ concatCols files then
    Except.ok (stage3Core hav factor files geo)
  else Except.error "結合後の販売実績データに必要な列が見つかりません。"

/-! ## Encoding fallback -/

/-- The text encodings the readers try. -/
inductive Enc where
  | utf8sig
  | cp932
  | utf8
deriving DecidableEq, Repr

/-- A Python exception from a decode attempt: either the strict decode
error that the Stage-1 reader dispatches on, or any other exception. -/
inductive PyErr where
  | unicode (msg : String)
  | other (msg : String)
deriving DecidableEq, Repr

/-- The outcome of one decode attempt: a table, or an exception together
with the stream position the failed attempt left behind. -/
inductive DecRes (T : Type) where
  | ok (t : T)
  | err (e : PyErr) (consumed : Nat)

/-- A byte stream with a cursor, as io.BytesIO presents it: a decode
attempt reads from the current position, and seek moves the cursor. -/
structure ByteStream where
  data : List Nat
  pos : Nat
deriving DecidableEq, Repr

/-- Embeds the loop of the Stage-2 and Stage-3 reader: for each encoding
seek the cursor to zero, decode from the cursor, return the first
success, and once every encoding has failed raise the decode-failure
error from the last exception. -/
def tryEncodings {T : Type} (decode : Enc → List Nat → DecRes T) :
    List Enc → ByteStream → Option PyErr → Except (String × PyErr) T
  | [], _, last => Except.error ("文字コード判別不能", last.getD (PyErr.other ""))
  | e :: rest, s, _ =>
    let s1 : ByteStream := { s with pos := 0 }
    match decode e (s1.data.drop s1.pos) with
    | DecRes.ok t => Except.ok t
    | DecRes.err pe c => tryEncodings decode rest { s1 with pos := c } (some pe)

/-- The Stage-2 and Stage-3 reader: try UTF-8 with BOM, then CP932, then
plain UTF-8. -/
def readCsvFallback23 {T : Type} (decode : Enc → List Nat → DecRes T)
    (s : ByteStream) : Except (String × PyErr) T :=
  tryEncodings decode [Enc.utf8sig, Enc.cp932, Enc.utf8] s none

/-- The Stage-1 reader: try UTF-8 with BOM; on a strict decode error
seek to zero and try CP932, raising the decode-failure error from the
CP932 exception when that also fails; on any other first-attempt
exception raise the file-read error instead. -/
def readCsvFallback1 {T : Type} (decode : Enc → List Nat → DecRes T)
    (s : ByteStream) : Except (String × PyErr) T :=
  let s1 : ByteStream := { s with pos := 0 }
  match decode Enc.utf8sig (s1.data.drop s1.pos) with
  | DecRes.ok t => Except.ok t
  | DecRes.err (PyErr.unicode _) c =>
    let s2 : ByteStream := { data := s1.data, pos := c }
    let s3 : ByteStream := { s2 with pos := 0 }
    (match decode Enc.cp932 (s3.data.drop s3.pos) with
     | DecRes.ok t => Except.ok t
     | DecRes.err pe _ => Except.error ("文字コード判別不能", pe))
  | DecRes.err (PyErr.other em) _ => Except.error ("ファイル読み込みエラー", PyErr.other em)

/-! ## Concrete instances used by the closed theorems -/

/-- Trigonometric core returning the zero distance everywhere, for runs
whose distances do not matter. -/
def hav0 : ℚ → ℚ → ℚ → ℚ → ℚ := fun _ _ _ _ => 0

/-- Trigonometric core returning exactly six hundred kilometres. -/
def hav600 : ℚ → ℚ → ℚ → ℚ → ℚ := fun _ _ _ _ => 600

/-- Trigonometric core returning the first five-decimal value above six
hundred kilometres. -/
def hav600b : ℚ → ℚ → ℚ → ℚ → ℚ := fun _ _ _ _ => 60000001 / 100000

/-- The single row of fileA. -/
def rowA : S3Row := { supplier := some "A", consignee := some "B", qty := some 1 }

/-- A sales-detail file carrying all three required columns and one
row. -/
def fileA : S3File :=
  { cols := ["仕入先コード", "荷受人コード", "分析用単位数量"],
    rows := [rowA] }

/-- A sales-detail file missing the required quantity column; its row
accordingly has a missing quantity cell after concatenation. -/
def fileB : S3File :=
  { cols := ["仕入先コード", "荷受人コード"],
    rows := [{ supplier := some "C", consignee := some "D", qty := none }] }

/-- A geocoded list resolving the two codes of fileA, one per role. -/
def geoListW : List GeoListRow :=
  [{ ctype := "仕入先", code := some "A", lat := some 1, lon := some 2 },
   { ctype := "荷受人", code := some "B", lat := some 3, lon := some 4 }]

/-- The sales table of the end-to-end hyphen example: supplier code with
a hyphen, consignee code without. -/
def c3sales : List SalesRow1 := [{ supplier := some "S-01", consignee := some "C99" }]

/-- The supplier master of the hyphen example: the single hyphen-free
entry. -/
def c3supplierMaster : List MasterRow := [{ code := some "S01", postal := some "1000000" }]

/-- The consignee master of the hyphen example. -/
def c3consigneeMaster : List MasterRow := [{ code := some "C99", postal := some "2000000" }]

/-- The sales table of the amended hyphen example: supplier code without
a hyphen. -/
def c3salesB : List SalesRow1 := [{ supplier := some "S01", consignee := some "C99" }]

/-- The supplier master of the amended hyphen example: the master entry
carries the hyphen that the Stage-1 preparation strips. -/
def c3supplierMasterB : List MasterRow := [{ code := some "S-01", postal := some "1000000" }]

/-- The geocode reference of the averaging example: two valid rows
sharing one postal key. -/
def c6rows : List GeoRow :=
  [{ postal := some "1000000", lat := some 10, lon := some 20 },
   { postal := some "1000000", lat := some 12, lon := some 22 }]

/-- The duplicate-code master of the dedup-direction example. -/
def c7master : List MasterRow :=
  [{ code := some "A", postal := some "100" }, { code := some "A", postal := some "200" }]

/-- A decode oracle on which strict UTF-8 with BOM raises a decode error
leaving the cursor past the start, and CP932 succeeds. -/
def c9decodeOk : Enc → List Nat → DecRes Nat := fun e _ =>
  match e with
  | Enc.utf8sig => DecRes.err (PyErr.unicode "u8") 3
  | Enc.cp932 => DecRes.ok 42
  | Enc.utf8 => DecRes.ok 7

/-- A decode oracle on which every encoding fails. -/
def c9decodeBad : Enc → List Nat → DecRes Nat := fun e _ =>
  match e with
  | Enc.utf8sig => DecRes.err (PyErr.unicode "u8") 1
  | Enc.cp932 => DecRes.err (PyErr.other "c9") 2
  | Enc.utf8 => DecRes.err (PyErr.other "u8plain") 0

/-- A byte stream whose cursor starts away from position zero. -/
def c9stream : ByteStream := { data := [1, 2, 3], pos := 2 }

/-- The sales table of the invalid-postal example. -/
def c10sales : List SalesRow1 := [{ supplier := some "X", consignee := some "Y" }]

/-- A supplier master whose postal value has only five digits. -/
def c10supplierMaster : List MasterRow := [{ code := some "X", postal := some "12345" }]

/-- A consignee master with a valid seven-digit postal. -/
def c10consigneeMaster : List MasterRow := [{ code := some "Y", postal := some "7654321" }]

/-- The Stage-2 code list holding the five-digit postal row that Stage 1
emitted as matched. -/
def c10codeList : List S2Row := [{ ctype := "仕入先", code := "X", postal := some "12345" }]

/-! ## Helper lemmas -/

theorem mem_dedupFirstAux [DecidableEq α] (seen : List α) (l : List α) (a : α) :
    a ∈ dedupFirstAux seen l ↔ a ∈ l ∧ a ∉ seen := by
  induction l generalizing seen with
  | nil => simp [dedupFirstAux]
  | cons x xs ih =>
    rw [dedupFirstAux]
    by_cases hx : x ∈ seen
    · rw [if_pos hx, ih]
      constructor
      · rintro ⟨h1, h2⟩; exact ⟨List.mem_cons_of_mem x h1, h2⟩
      · rintro ⟨h1, h2⟩
        rcases List.mem_cons.mp h1 with h1 | h1
        · exact absurd (h1 ▸ hx) h2
        · exact ⟨h1, h2⟩
    · rw [if_neg hx]
      constructor
      · intro hmem
        rcases List.mem_cons.mp hmem with h | h
        · cases h; exact ⟨List.mem_cons_self _ _, hx⟩
        · have h2 := (ih (x :: seen)).mp h
          exact ⟨List.mem_cons_of_mem x h2.1, fun hs => h2.2 (List.mem_cons_of_mem x hs)⟩
      · rintro ⟨h1, h2⟩
        rcases List.mem_cons.mp h1 with h | h
        · cases h; exact List.mem_cons_self _ _
        · by_cases hax : a = x
          · cases hax; exact List.mem_cons_self _ _
          · refine List.mem_cons_of_mem x ((ih (x :: seen)).mpr ⟨h, fun hs => ?_⟩)
            rcases List.mem_cons.mp hs with hs | hs
            · exact hax hs
            · exact h2 hs

theorem nodup_dedupFirstAux [DecidableEq α] (seen : List α) (l : List α) :
    (dedupFirstAux seen l).Nodup := by
  induction l generalizing seen with
  | nil => simp [dedupFirstAux]
  | cons x xs ih =>
    by_cases hx : x ∈ seen
    · rw [dedupFirstAux, if_pos hx]; exact ih seen
    · rw [dedupFirstAux, if_neg hx, List.nodup_cons]
      refine ⟨fun hmem => ?_, ih (x :: seen)⟩
      exact ((mem_dedupFirstAux (x :: seen) xs x).mp hmem).2 (List.mem_cons_self x seen)

theorem mem_dedupFirst [DecidableEq α] (l : List α) (a : α) :
    a ∈ dedupFirst l ↔ a ∈ l := by
  simp [dedupFirst, mem_dedupFirstAux]

theorem nodup_dedupFirst [DecidableEq α] (l : List α) : (dedupFirst l).Nodup :=
  nodup_dedupFirstAux [] l

theorem count_dedupFirst [DecidableEq α] (l : List α) (a : α) :
    (dedupFirst l).count a = if a ∈ l then 1 else 0 := by
  by_cases h : a ∈ l
  · rw [if_pos h]
    exact List.count_eq_one_of_mem (nodup_dedupFirst l) ((mem_dedupFirst l a).mpr h)
  · rw [if_neg h]
    exact List.count_eq_zero_of_not_mem (fun hm => h ((mem_dedupFirst l a).mp hm))

theorem length_filter_partition (l : List α) (p : α → Bool) :
    (l.filter p).length + (l.filter (fun a => !(p a))).length = l.length := by
  induction l with
  | nil => rfl
  | cons x xs ih =>
    cases h : p x
    · simp only [List.filter_cons, h, Bool.not_false, if_true, if_false, List.length_cons,
        Bool.false_eq_true, ite_false, ite_true]
      omega
    · simp only [List.filter_cons, h, Bool.not_true, if_true, if_false, List.length_cons,
        Bool.false_eq_true, ite_false, ite_true]
      omega

theorem find_map_of_key {β : Type} (f : String → β) (keyOf : β → String)
    (hk : ∀ k, keyOf (f k) = k) (l : List String) (k : String) (hm : k ∈ l) :
    (l.map f).find? (fun e => keyOf e = k) = some (f k) := by
  induction l with
  | nil => cases hm
  | cons x xs ih =>
    by_cases hx : x = k
    · subst hx
      simp [List.find?_cons, hk]
    · rcases List.mem_cons.mp hm with h | h
      · exact absurd h.symm hx
      · have : (decide (keyOf (f x) = k)) = false := by
          simp [hk, hx]
        simp only [List.map_cons, List.find?_cons, this]
        exact ih h

theorem find_dedupLastBy [DecidableEq κ] (key : α → κ) (l : List α) (k : κ) :
    (dedupLastBy key l).find? (fun x => key x = k) =
      (l.filter (fun x => key x = k)).getLast? := by
  induction l with
  | nil => rfl
  | cons x xs ih =>
    by_cases hdup : xs.any (fun y => key y = key x)
    · rw [dedupLastBy, if_pos hdup, ih]
      by_cases hx : key x = k
      · rw [List.filter_cons, if_pos (by simpa using hx)]
        rcases hy : xs.filter (fun y => decide (key y = k)) with _ | ⟨y, ys⟩
        · exfalso
          rcases List.any_eq_true.mp hdup with ⟨z, hz, hzk⟩
          have hzk2 : key z = k := by rw [of_decide_eq_true hzk, hx]
          have hzmem : z ∈ xs.filter (fun y => decide (key y = k)) :=
            List.mem_filter.mpr ⟨hz, by simpa using hzk2⟩
          rw [hy] at hzmem; cases hzmem
        · exact List.getLast?_cons_cons.symm
      · rw [List.filter_cons, if_neg (by simpa using hx)]
    · rw [dedupLastBy, if_neg hdup]
      by_cases hx : key x = k
      · rw [List.find?_cons_of_pos _ (by simpa using hx)]
        rw [List.filter_cons, if_pos (by simpa using hx)]
        have hnil : xs.filter (fun y => decide (key y = k)) = [] := by
          rcases hz : xs.filter (fun y => decide (key y = k)) with _ | ⟨z, zs⟩
          · rfl
          · exfalso
            have hzmem : z ∈ xs.filter (fun y => decide (key y = k)) := by
              rw [hz]; exact List.mem_cons_self z zs
            have hzf := List.mem_filter.mp hzmem
            apply hdup
            refine List.any_eq_true.mpr ⟨z, hzf.1, decide_eq_true ?_⟩
            rw [of_decide_eq_true hzf.2, hx]
        rw [hnil]
        rfl
      · rw [List.find?_cons_of_neg _ (by simpa using hx),
          List.filter_cons, if_neg (by simpa using hx), ih]

theorem haversineOpt_none_first (hav : ℚ → ℚ → ℚ → ℚ → ℚ) (b c d : Option ℚ) :
    haversineOpt hav none b c d = none := rfl

theorem haversineOpt_none_third (hav : ℚ → ℚ → ℚ → ℚ → ℚ) (a b d : Option ℚ) :
    haversineOpt hav a b none d = none := by
  cases a <;> cases b <;> rfl

theorem round5_zero : round5 0 = 0 := by
  rw [round5]
  norm_num

theorem processRow_miss (hav : ℚ → ℚ → ℚ → ℚ → ℚ)
    (supT conT : List (String × ℚ × ℚ)) (factor : ℚ) (r : S3Row)
    (hm : lookupGeo supT (strip (optStr r.supplier)) = none ∨
          lookupGeo conT (strip (optStr r.consignee)) = none) :
    (processRow hav supT conT factor r).distKm = 0 ∧
      (processRow hav supT conT factor r).co2g = 0 := by
  have hdist : (haversineOpt hav
      ((lookupGeo supT (strip (optStr r.supplier))).map Prod.fst)
      ((lookupGeo supT (strip (optStr r.supplier))).map Prod.snd)
      ((lookupGeo conT (strip (optStr r.consignee))).map Prod.fst)
      ((lookupGeo conT (strip (optStr r.consignee))).map Prod.snd)).getD 0 = 0 := by
    rcases hm with hm | hm
    · rw [hm]
      simp [haversineOpt_none_first]
    · rw [hm]
      simp [haversineOpt_none_third]
  constructor
  · show round5 ((haversineOpt hav _ _ _ _).getD 0) = 0
    rw [hdist, round5_zero]
  · show round5 (((haversineOpt hav _ _ _ _).getD 0) * (r.qty.getD 0) * factor) = 0
    rw [hdist, zero_mul, zero_mul, round5_zero]

theorem stage3_ok_inv (hav : ℚ → ℚ → ℚ → ℚ → ℚ) (factor : ℚ)
    (files : List S3File) (geo : List GeoListRow) (out : S3Out)
    (h : stage3 hav factor files geo = Except.ok out) :
    out = stage3Core hav factor files geo := by
  rw [stage3] at h
  by_cases h1 : files = []
  · rw [if_pos h1] at h; exact Except.noConfusion h
  · rw [if_neg h1] at h
    by_cases h2 : ∀ c ∈ requiredSalesCols, c ∈ concatCols files
    · rw [if_pos h2] at h
      injection h with h
      exact h.symm
    · rw [if_neg h2] at h; exact Except.noConfusion h

theorem mem_normal_of_le (hav : ℚ → ℚ → ℚ → ℚ → ℚ) (factor : ℚ)
    (files : List S3File) (geo : List GeoListRow) (r : S3Row)
    (hr : r ∈ allSalesRows files)
    (hle : (processRow hav (prepGeo geo).1 (prepGeo geo).2 factor r).distKm ≤ 600) :
    processRow hav (prepGeo geo).1 (prepGeo geo).2 factor r ∈
      (stage3Core hav factor files geo).normal :=
  List.mem_filter.mpr ⟨List.mem_map_of_mem _ hr, decide_eq_true hle⟩

theorem mem_anomaly_of_gt (hav : ℚ → ℚ → ℚ → ℚ → ℚ) (factor : ℚ)
    (files : List S3File) (geo : List GeoListRow) (r : S3Row)
    (hr : r ∈ allSalesRows files)
    (hgt : 600 < (processRow hav (prepGeo geo).1 (prepGeo geo).2 factor r).distKm) :
    processRow hav (prepGeo geo).1 (prepGeo geo).2 factor r ∈
      (stage3Core hav factor files geo).anomaly :=
  List.mem_filter.mpr ⟨List.mem_map_of_mem _ hr, decide_eq_true hgt⟩

theorem not_mem_anomaly_of_le (hav : ℚ → ℚ → ℚ → ℚ → ℚ) (factor : ℚ)
    (files : List S3File) (geo : List GeoListRow) (o : OutRow)
    (hle : o.distKm ≤ 600) :
    o ∉ (stage3Core hav factor files geo).anomaly := by
  intro hmem
  have := of_decide_eq_true (List.mem_filter.mp hmem).2
  exact absurd hle (not_le.mpr this)

theorem not_mem_normal_of_gt (hav : ℚ → ℚ → ℚ → ℚ → ℚ) (factor : ℚ)
    (files : List S3File) (geo : List GeoListRow) (o : OutRow)
    (hgt : 600 < o.distKm) :
    o ∉ (stage3Core hav factor files geo).normal := by
  intro hmem
  have := of_decide_eq_true (List.mem_filter.mp hmem).2
  exact absurd this (not_le.mpr hgt)

/-! ## The claims -/

/-- C7: in Stage-1 master preparation, when a master table contains
duplicate rows for the same normalized code the last-occurring row wins:
looking any code up in either prepared master returns the postal of the
last normalized row carrying that code; in particular the duplicate
master [(A,100),(A,200)] resolves code A to postal 200. -/
theorem master_dedup_last_wins :
    (∀ (stripHy : Bool) (rows : List MasterRow) (c : String),
        lookupMaster (prepMaster stripHy rows) c =
          (((masterNormRows stripHy rows).filter (fun e => e.1 = c)).getLast?).map
            (fun e => e.2)) ∧
    lookupMaster (prepMaster true c7master) "A" = some "200" := by
  constructor
  · intro stripHy rows c
    rw [lookupMaster, prepMaster, find_dedupLastBy]
  · decide

/-- C6: when a seven-digit postal key maps to several valid geocode
reference rows, Stage 2 resolves the key to the arithmetic mean of the
latitudes and of the longitudes over all valid rows sharing the key. -/
theorem geo_averaging (rows : List GeoRow) (k : String)
    (h : (validGeo rows).filter (fun e => e.1 = k) ≠ []) :
    lookupAvg (geocodeAvgTable rows) k =
      some ((((validGeo rows).filter (fun e => e.1 = k)).map (fun e => e.2.1)).sum /
              (((validGeo rows).filter (fun e => e.1 = k)).length : ℚ),
            (((validGeo rows).filter (fun e => e.1 = k)).map (fun e => e.2.2)).sum /
              (((validGeo rows).filter (fun e => e.1 = k)).length : ℚ)) := by
  have hk : k ∈ groupKeys (validGeo rows) := by
    rcases hg : (validGeo rows).filter (fun e => e.1 = k) with _ | ⟨y, ys⟩
    · exact absurd hg h
    · have hy : y ∈ (validGeo rows).filter (fun e => e.1 = k) := by
        rw [hg]; exact List.mem_cons_self y ys
      have hf := List.mem_filter.mp hy
      rw [groupKeys, mem_dedupFirst]
      exact List.mem_map.mpr ⟨y, hf.1, of_decide_eq_true hf.2⟩
  rw [lookupAvg, geocodeAvgTable]
  rw [find_map_of_key
    (fun k1 => (k1,
      (((validGeo rows).filter (fun e => e.1 = k1)).map (fun e => e.2.1)).sum /
        (((validGeo rows).filter (fun e => e.1 = k1)).length : ℚ),
      (((validGeo rows).filter (fun e => e.1 = k1)).map (fun e => e.2.2)).sum /
        (((validGeo rows).filter (fun e => e.1 = k1)).length : ℚ)))
    (fun e => e.1) (fun _ => rfl) (groupKeys (validGeo rows)) k hk]
  rfl

/-- C6 witness: the two rows sharing key 1000000 with coordinates
(10, 20) and (12, 22) resolve the key to the mean point (11, 21). -/
theorem geo_averaging_witness :
    lookupAvg (geocodeAvgTable c6rows) "1000000" = some (11, 21) := by
  rw [geo_averaging c6rows "1000000" (by decide)]
  with_unfolding_all rfl

/-- C3 counterexample: with sales supplier code S-01 and the single
supplier-master entry (S01, 1000000), Stage 1 does not match the pair:
hyphen stripping applies to the master side only, so the pair
(supplier, S-01) lands in the unmatched output and the matched output
holds only the consignee pair. -/
theorem stage1_hyphen_counterexample :
    stage1 c3sales c3supplierMaster c3consigneeMaster =
      { success := [Linked.mk CodeType.consignee "C99" "2000000"],
        failed := [CodeRec.mk CodeType.supplier "S-01"] } := by decide

/-- C3 amended: Stage-1 hyphen stripping runs on the supplier-master
codes, not on the sales codes: with sales supplier code S01 and the
master entry (S-01, 1000000), the master code is stripped to S01, the
pair (supplier, S01) matches, and it appears in the matched output
resolved to postal 1000000. -/
theorem stage1_hyphen_amended :
    stage1 c3salesB c3supplierMasterB c3consigneeMaster =
      { success := [Linked.mk CodeType.supplier "S01" "1000000",
                    Linked.mk CodeType.consignee "C99" "2000000"],
        failed := [] } := by decide

/-- C1: every Stage-3 run that completes conserves rows: the number of
normal output rows plus the number of anomalous output rows equals the
total number of input sales-detail rows across all concatenated input
files. -/
theorem stage3_conservation (hav : ℚ → ℚ → ℚ → ℚ → ℚ) (factor : ℚ)
    (files : List S3File) (geo : List GeoListRow) (out : S3Out)
    (h : stage3 hav factor files geo = Except.ok out) :
    out.normal.length + out.anomaly.length =
      (files.map (fun f => f.rows.length)).sum := by
  rw [stage3_ok_inv hav factor files geo out h, stage3Core]
  have hq : ((allSalesRows files).map
        (processRow hav (prepGeo geo).1 (prepGeo geo).2 factor)).filter
        (fun o => decide (600 < o.distKm)) =
      ((allSalesRows files).map
        (processRow hav (prepGeo geo).1 (prepGeo geo).2 factor)).filter
        (fun o => !(decide (o.distKm ≤ 600))) :=
    List.filter_congr (fun o _ => by
      rw [← decide_not, decide_eq_decide]
      exact lt_iff_not_le)
  rw [hq, length_filter_partition, List.length_map, allSalesRows,
    List.length_flatten, List.map_map]
  rfl

/-- C1 witness: a one-file run completes and its two output buckets
together hold exactly the one input row. -/
theorem stage3_conservation_witness :
    (stage3Core hav0 230 [fileA] []).normal.length +
      (stage3Core hav0 230 [fileA] []).anomaly.length =
      ([fileA].map (fun f => f.rows.length)).sum :=
  stage3_conservation hav0 230 [fileA] [] (stage3Core hav0 230 [fileA] [])
    (by with_unfolding_all rfl)

/-- C5: in every completed Stage-3 run, a sales-detail row whose
supplier code or consignee code finds no coordinate match in the
prepared geocoded lookups gets distance 0 and CO2 estimate 0, and its
output row is placed in the normal output and never in the anomalous
output. -/
theorem missing_coordinate_policy (hav : ℚ → ℚ → ℚ → ℚ → ℚ) (factor : ℚ)
    (files : List S3File) (geo : List GeoListRow) (out : S3Out) (r : S3Row)
    (h : stage3 hav factor files geo = Except.ok out)
    (hr : r ∈ allSalesRows files)
    (hmiss : lookupGeo (prepGeo geo).1 (strip (optStr r.supplier)) = none ∨
             lookupGeo (prepGeo geo).2 (strip (optStr r.consignee)) = none) :
    (processRow hav (prepGeo geo).1 (prepGeo geo).2 factor r).distKm = 0 ∧
    (processRow hav (prepGeo geo).1 (prepGeo geo).2 factor r).co2g = 0 ∧
    processRow hav (prepGeo geo).1 (prepGeo geo).2 factor r ∈ out.normal ∧
    processRow hav (prepGeo geo).1 (prepGeo geo).2 factor r ∉ out.anomaly := by
  have hz := processRow_miss hav (prepGeo geo).1 (prepGeo geo).2 factor r hmiss
  rw [stage3_ok_inv hav factor files geo out h]
  refine ⟨hz.1, hz.2, ?_, ?_⟩
  · exact mem_normal_of_le hav factor files geo r hr (by rw [hz.1]; norm_num)
  · exact not_mem_anomaly_of_le hav factor files geo _ (by rw [hz.1]; norm_num)

/-- C5 witness: with an empty geocoded list, the single sales row of
fileA misses both lookups, gets zero distance and zero CO2, and lands in
the normal bucket only. -/
theorem missing_coordinate_policy_witness :
    (processRow hav0 (prepGeo []).1 (prepGeo []).2 230 rowA).distKm = 0 ∧
    (processRow hav0 (prepGeo []).1 (prepGeo []).2 230 rowA).co2g = 0 ∧
    processRow hav0 (prepGeo []).1 (prepGeo []).2 230 rowA ∈
      (stage3Core hav0 230 [fileA] []).normal ∧
    processRow hav0 (prepGeo []).1 (prepGeo []).2 230 rowA ∉
      (stage3Core hav0 230 [fileA] []).anomaly :=
  missing_coordinate_policy hav0 230 [fileA] [] (stage3Core hav0 230 [fileA] [])
    rowA (by with_unfolding_all rfl) (by decide) (Or.inl (by decide))

/-- C8: Stage-3 classification is inclusive on the lower bucket: in a
completed run, an output row whose rounded distance column is exactly
600 km is placed in the normal output and not in the anomalous output,
while one whose rounded distance column is 600.00001 km is placed in the
anomalous output and not in the normal output. -/
theorem threshold_boundary (hav : ℚ → ℚ → ℚ → ℚ → ℚ) (factor : ℚ)
    (files : List S3File) (geo : List GeoListRow) (out : S3Out) (r : S3Row)
    (h : stage3 hav factor files geo = Except.ok out)
    (hr : r ∈ allSalesRows files) :
    ((processRow hav (prepGeo geo).1 (prepGeo geo).2 factor r).distKm = 600 →
      processRow hav (prepGeo geo).1 (prepGeo geo).2 factor r ∈ out.normal ∧
      processRow hav (prepGeo geo).1 (prepGeo geo).2 factor r ∉ out.anomaly) ∧
    ((processRow hav (prepGeo geo).1 (prepGeo geo).2 factor r).distKm = 60000001 / 100000 →
      processRow hav (prepGeo geo).1 (prepGeo geo).2 factor r ∈ out.anomaly ∧
      processRow hav (prepGeo geo).1 (prepGeo geo).2 factor r ∉ out.normal) := by
  rw [stage3_ok_inv hav factor files geo out h]
  constructor
  · intro hd
    refine ⟨mem_normal_of_le hav factor files geo r hr (by rw [hd]), ?_⟩
    exact not_mem_anomaly_of_le hav factor files geo _ (by rw [hd])
  · intro hd
    refine ⟨mem_anomaly_of_gt hav factor files geo r hr (by rw [hd]; norm_num), ?_⟩
    exact not_mem_normal_of_gt hav factor files geo _ (by rw [hd]; norm_num)

/-- C8 witness: with both endpoints resolved, a trigonometric core
returning exactly 600 km puts the row in the normal bucket, and one
returning 600.00001 km puts it in the anomalous bucket. -/
theorem threshold_boundary_witness :
    (processRow hav600 (prepGeo geoListW).1 (prepGeo geoListW).2 230 rowA ∈
        (stage3Core hav600 230 [fileA] geoListW).normal ∧
      processRow hav600 (prepGeo geoListW).1 (prepGeo geoListW).2 230 rowA ∉
        (stage3Core hav600 230 [fileA] geoListW).anomaly) ∧
    (processRow hav600b (prepGeo geoListW).1 (prepGeo geoListW).2 230 rowA ∈
        (stage3Core hav600b 230 [fileA] geoListW).anomaly ∧
      processRow hav600b (prepGeo geoListW).1 (prepGeo geoListW).2 230 rowA ∉
        (stage3Core hav600b 230 [fileA] geoListW).normal) :=
  ⟨(threshold_boundary hav600 230 [fileA] geoListW (stage3Core hav600 230 [fileA] geoListW)
      rowA (by with_unfolding_all rfl) (by decide)).1
      (by with_unfolding_all rfl),
   (threshold_boundary hav600b 230 [fileA] geoListW (stage3Core hav600b 230 [fileA] geoListW)
      rowA (by with_unfolding_all rfl) (by decide)).2
      (by with_unfolding_all rfl)⟩

/-- C2: Stage 1 partitions the deduplicated code pairs exactly once:
every pair extracted and normalized from the sales input appears exactly
once across the matched and unmatched outputs combined, a pair never
extracted appears zero times, and the two output sizes sum to the number
of unique pairs after deduplication. -/
theorem stage1_exactly_once_partition (sales : List SalesRow1)
    (supR conR : List MasterRow) :
    (∀ p : CodeRec,
        (((stage1 sales supR conR).success.map pairOf) ++
            (stage1 sales supR conR).failed).count p =
          if p ∈ normalizedCodes sales then 1 else 0) ∧
    (stage1 sales supR conR).success.length + (stage1 sales supR conR).failed.length =
      (dedupFirst (normalizedCodes sales)).length := by
  have hperm : List.Perm (((stage1 sales supR conR).success.map pairOf) ++
      (stage1 sales supR conR).failed) (dedupFirst (normalizedCodes sales)) := by
    simp only [stage1]
    rw [← List.map_append]
    have h1 : List.Perm
        ((mergedAll (dedupFirst (normalizedCodes sales)) (prepMaster true supR)
            (prepMaster false conR)).filter (fun r => r.postal ≠ "") ++
          (mergedAll (dedupFirst (normalizedCodes sales)) (prepMaster true supR)
            (prepMaster false conR)).filter (fun r => r.postal = ""))
        (mergedAll (dedupFirst (normalizedCodes sales)) (prepMaster true supR)
          (prepMaster false conR)) := by
      have hq : (mergedAll (dedupFirst (normalizedCodes sales)) (prepMaster true supR)
            (prepMaster false conR)).filter (fun r => r.postal ≠ "") =
          (mergedAll (dedupFirst (normalizedCodes sales)) (prepMaster true supR)
            (prepMaster false conR)).filter
            (fun r => !(decide (r.postal = ""))) :=
        List.filter_congr (fun x _ => by rw [decide_not])
      rw [hq]
      exact List.Perm.trans List.perm_append_comm (List.filter_append_perm _ _)
    refine (h1.map pairOf).trans ?_
    rw [mergedAll, List.map_append, List.map_map, List.map_map]
    have hid1 : (pairOf ∘ fun r : CodeRec =>
        Linked.mk r.ctype r.code (postalToStr (joinedPostal (prepMaster true supR)
          (prepMaster false conR) r))) = fun r => r := funext (fun r => rfl)
    rw [hid1, List.map_id', List.map_id']
    have hc : (dedupFirst (normalizedCodes sales)).filter
          (fun r => r.ctype = CodeType.consignee) =
        (dedupFirst (normalizedCodes sales)).filter
          (fun r => !(decide (r.ctype = CodeType.supplier))) :=
      List.filter_congr (fun x _ => by cases x with
        | mk t c => cases t <;> rfl)
    rw [hc]
    exact List.filter_append_perm _ _
  constructor
  · intro p
    rw [hperm.count_eq p, count_dedupFirst]
  · have hlen := hperm.length_eq
    rw [List.length_append, List.length_map] at hlen
    exact hlen

/-- C4 counterexample: a Stage-3 run in which the second input table is
missing the required quantity column does not abort: it completes and
emits both rows, the bad row with its quantity coerced to zero. -/
theorem stage3_schema_counterexample :
    stage3 hav0 230 [fileA, fileB] [] =
      Except.ok
        { inputCount := 2,
          normal := [{ supplier := some "A", consignee := some "B", qty := some 1,
                       supLat := none, supLon := none, conLat := none, conLon := none,
                       distKm := 0, co2g := 0 },
                     { supplier := some "C", consignee := some "D", qty := none,
                       supLat := none, supLon := none, conLat := none, conLon := none,
                       distKm := 0, co2g := 0 }],
          anomaly := [] } := by
  with_unfolding_all rfl

/-- C4 amended: Stage 3 performs no per-table schema check; the
required-column check runs once on the concatenated table, whose columns
are the union of the files, so a nonempty run aborts with an error
exactly when some required column is present in no input file, and a
table individually missing the quantity column is processed with those
cells coerced to zero. -/
theorem stage3_schema_amended (hav : ℚ → ℚ → ℚ → ℚ → ℚ) (factor : ℚ)
    (files : List S3File) (geo : List GeoListRow) (h : files ≠ []) :
    (∃ e, stage3 hav factor files geo = Except.error e) ↔
      ∃ c ∈ requiredSalesCols, ∀ f ∈ files, c ∉ f.cols := by
  rw [stage3, if_neg h]
  by_cases h2 : ∀ c ∈ requiredSalesCols, c ∈ concatCols files
  · rw [if_pos h2]
    constructor
    · rintro ⟨e, he⟩
      exact Except.noConfusion he
    · rintro ⟨c, hc, hnone⟩
      exfalso
      have hmem := h2 c hc
      rw [concatCols, mem_dedupFirst, List.mem_flatten] at hmem
      rcases hmem with ⟨l, hl, hcl⟩
      rcases List.mem_map.mp hl with ⟨f, hf, rfl⟩
      exact hnone f hf hcl
  · rw [if_neg h2]
    constructor
    · rintro ⟨e, _⟩
      push_neg at h2
      rcases h2 with ⟨c, hc, hnc⟩
      refine ⟨c, hc, fun f hf hd => hnc ?_⟩
      rw [concatCols, mem_dedupFirst, List.mem_flatten]
      exact ⟨f.cols, List.mem_map.mpr ⟨f, hf, rfl⟩, hd⟩
    · intro _
      exact ⟨_, rfl⟩

/-- C4 amended witness: a run whose single file is missing the quantity
column in every file aborts, as the amended claim states. -/
theorem stage3_schema_amended_witness :
    (∃ e, stage3 hav0 230 [fileB] [] = Except.error e) ↔
      ∃ c ∈ requiredSalesCols, ∀ f ∈ [fileB], c ∉ f.cols :=
  stage3_schema_amended hav0 230 [fileB] [] (List.cons_ne_nil fileB [])

/-- C9: on every byte stream, whatever the starting cursor position, a
strict decode error from UTF-8 with BOM followed by a CP932 success
returns the CP932 table decoded from the full data (the cursor is reset
to zero before each retry) in both readers; and when every tried
encoding fails, both readers raise the decode-failure error carrying the
last underlying exception as cause. -/
theorem encoding_fallback {T : Type} (decode : Enc → List Nat → DecRes T)
    (s : ByteStream) :
    (∀ (m : String) (c : Nat) (t : T),
        decode Enc.utf8sig s.data = DecRes.err (PyErr.unicode m) c →
        decode Enc.cp932 s.data = DecRes.ok t →
        readCsvFallback1 decode s = Except.ok t ∧
        readCsvFallback23 decode s = Except.ok t) ∧
    (∀ (m : String) (c1 c2 : Nat) (pe2 : PyErr),
        decode Enc.utf8sig s.data = DecRes.err (PyErr.unicode m) c1 →
        decode Enc.cp932 s.data = DecRes.err pe2 c2 →
        readCsvFallback1 decode s = Except.error ("文字コード判別不能", pe2)) ∧
    (∀ (pe1 pe2 pe3 : PyErr) (c1 c2 c3 : Nat),
        decode Enc.utf8sig s.data = DecRes.err pe1 c1 →
        decode Enc.cp932 s.data = DecRes.err pe2 c2 →
        decode Enc.utf8 s.data = DecRes.err pe3 c3 →
        readCsvFallback23 decode s = Except.error ("文字コード判別不能", pe3)) := by
  refine ⟨?_, ?_, ?_⟩
  · intro m c t h1 h2
    constructor
    · rw [readCsvFallback1]
      simp only [List.drop_zero, h1, h2]
    · rw [readCsvFallback23, tryEncodings]
      simp only [List.drop_zero, h1]
      rw [tryEncodings]
      simp only [List.drop_zero, h2]
  · intro m c1 c2 pe2 h1 h2
    rw [readCsvFallback1]
    simp only [List.drop_zero, h1, h2]
  · intro pe1 pe2 pe3 c1 c2 c3 h1 h2 h3
    rw [readCsvFallback23, tryEncodings]
    simp only [List.drop_zero, h1]
    rw [tryEncodings]
    simp only [List.drop_zero, h2]
    rw [tryEncodings]
    simp only [List.drop_zero, h3]
    rw [tryEncodings]
    rfl

/-- C9 witness: a stream whose cursor starts at position two is decoded
in full by the CP932 fallback in both readers, and an oracle failing on
all three encodings yields the decode-failure error carrying the last
exception. -/
theorem encoding_fallback_witness :
    (readCsvFallback1 c9decodeOk c9stream = Except.ok 42 ∧
     readCsvFallback23 c9decodeOk c9stream = Except.ok 42) ∧
    readCsvFallback23 c9decodeBad c9stream =
      Except.error ("文字コード判別不能", PyErr.other "u8plain") :=
  ⟨(encoding_fallback c9decodeOk c9stream).1 "u8" 3 42 rfl rfl,
   (encoding_fallback c9decodeBad c9stream).2.2 (PyErr.unicode "u8") (PyErr.other "c9")
     (PyErr.other "u8plain") 1 2 0 rfl rfl rfl⟩

/-- C10: Stage 1 performs no postal-format validation: every pair whose
joined master postal stringifies to a non-empty text is placed in the
matched output, with no seven-digit requirement; and Stage 2 drops every
code-list row whose postal key is not exactly seven digits before the
join, so such a row appears in neither Stage-2 output. -/
theorem no_postal_validation :
    (∀ (sales : List SalesRow1) (supR conR : List MasterRow) (p : CodeRec),
        p ∈ dedupFirst (normalizedCodes sales) →
        postalToStr (joinedPostal (prepMaster true supR) (prepMaster false conR) p) ≠ "" →
        Linked.mk p.ctype p.code
            (postalToStr (joinedPostal (prepMaster true supR) (prepMaster false conR) p)) ∈
          (stage1 sales supR conR).success) ∧
    (∀ (cl : List S2Row) (geo : List GeoRow) (r : S2Row),
        r ∈ cl → isDigit7 (s2postalKey r) = false →
        (∀ srow ∈ (stage2 cl geo).success,
            ¬(srow.ctype = r.ctype ∧ srow.code = r.code ∧
              srow.postal = strip (optStr r.postal))) ∧
        (∀ frow ∈ (stage2 cl geo).failed,
            ¬(frow.ctype = r.ctype ∧ frow.code = r.code ∧
              frow.postal = strip (optStr r.postal)))) := by
  constructor
  · intro sales supR conR p hp hne
    have hmrg : Linked.mk p.ctype p.code
        (postalToStr (joinedPostal (prepMaster true supR) (prepMaster false conR) p)) ∈
        mergedAll (dedupFirst (normalizedCodes sales)) (prepMaster true supR)
          (prepMaster false conR) := by
      rw [mergedAll, List.mem_append]
      cases hpt : p.ctype with
      | supplier =>
        refine Or.inl (List.mem_map.mpr ⟨p, List.mem_filter.mpr ⟨hp, ?_⟩, by rw [hpt]⟩)
        rw [hpt]; exact decide_eq_true rfl
      | consignee =>
        refine Or.inr (List.mem_map.mpr ⟨p, List.mem_filter.mpr ⟨hp, ?_⟩, by rw [hpt]⟩)
        rw [hpt]; exact decide_eq_true rfl
    exact List.mem_filter.mpr ⟨hmrg, decide_eq_true hne⟩
  · intro cl geo r hr hbad
    constructor
    · intro srow hs
      rintro ⟨hct, hcode, hpost⟩
      rcases List.mem_filterMap.mp hs with ⟨pr, hpr, hg⟩
      rcases List.mem_map.mp hpr with ⟨r1, hr1, rfl⟩
      rcases Option.map_eq_some'.mp hg with ⟨ll, hll, hsrow⟩
      have hk1 : isDigit7 (s2postalKey r1) = true := (List.mem_filter.mp hr1).2
      have hpost1 : srow.postal = strip (optStr r1.postal) := by rw [← hsrow]
      have hkey : s2postalKey r1 = s2postalKey r := by
        rw [s2postalKey, s2postalKey, ← hpost1, hpost]
      rw [hkey, hbad] at hk1
      exact Bool.noConfusion hk1
    · intro frow hf
      rintro ⟨hct, hcode, hpost⟩
      rcases List.mem_filterMap.mp hf with ⟨pr, hpr, hg⟩
      rcases List.mem_map.mp hpr with ⟨r1, hr1, rfl⟩
      have hk1 : isDigit7 (s2postalKey r1) = true := (List.mem_filter.mp hr1).2
      rcases hlk : lookupAvg (geocodeAvgTable geo) (s2postalKey r1) with _ | ll
      · rw [hlk] at hg
        have hfrow : frow = S2FRow.mk r1.ctype r1.code (strip (optStr r1.postal)) s2FailReason :=
          (Option.some.inj hg).symm
        have hpost1 : frow.postal = strip (optStr r1.postal) := by rw [hfrow]
        have hkey : s2postalKey r1 = s2postalKey r := by
          rw [s2postalKey, s2postalKey, ← hpost1, hpost]
        rw [hkey, hbad] at hk1
        exact Bool.noConfusion hk1
      · rw [hlk] at hg
        exact Option.noConfusion hg

/-- C10 witness: Stage 1 places the five-digit postal pair in its
matched output, and Stage 2 drops that row before the join so it appears
in neither Stage-2 output. -/
theorem no_postal_validation_witness :
    Linked.mk CodeType.supplier "X" "12345" ∈
      (stage1 c10sales c10supplierMaster c10consigneeMaster).success ∧
    ((∀ srow ∈ (stage2 c10codeList []).success,
        ¬(srow.ctype = "仕入先" ∧ srow.code = "X" ∧ srow.postal = "12345")) ∧
     (∀ frow ∈ (stage2 c10codeList []).failed,
        ¬(frow.ctype = "仕入先" ∧ frow.code = "X" ∧ frow.postal = "12345"))) :=
  ⟨no_postal_validation.1 c10sales c10supplierMaster c10consigneeMaster
      (CodeRec.mk CodeType.supplier "X") (by decide) (by decide),
   no_postal_validation.2 c10codeList [] (S2Row.mk "仕入先" "X" (some "12345"))
      (List.mem_cons_self _ _) (by decide)⟩

end CO2
